import Mathlib

/-!
Shallow embedding of `backend/app.py` ("Social OSINT Keyword & Sentiment
API"): the canonical Post record, the three source adapters, the fetch cache
with its dispatch handler, and the text-analytics pipeline.  External
collaborators (the upstream HTTP responses, the parsed RSS feed, the snscrape
subprocess, the yake / spaCy / VADER libraries) are modelled as explicit
inputs or oracle functions; timestamps are Unix seconds as `Int`, and the
VADER / yake scores are scaled to ten-thousandths so that the 0.05 threshold
becomes 500.
-/

namespace OsintApp

instance {ε α : Type} [DecidableEq ε] [DecidableEq α] : DecidableEq (Except ε α)
  | .error e, .error f =>
      if h : e = f then .isTrue (by rw [h])
      else .isFalse (fun hh => by cases hh; exact h rfl)
  | .error _, .ok _ => .isFalse (fun hh => by cases hh)
  | .ok _, .error _ => .isFalse (fun hh => by cases hh)
  | .ok a, .ok b =>
      if h : a = b then .isTrue (by rw [h])
      else .isFalse (fun hh => by cases hh; exact h rfl)

/-- Python's `str.strip()` with no argument: leading and trailing whitespace
removed (modelled over the ASCII whitespace characters Lean's
`Char.isWhitespace` recognizes). -/
def pyStrip (s : String) : String :=
  String.mk (((s.data.dropWhile Char.isWhitespace).reverse.dropWhile
    Char.isWhitespace).reverse)

/-- Canonical Post record, exactly the dict shape the adapters build
(`author` is absent in the news adapter's dict, modelled as `none`). -/
structure Post where
  id : String
  platform : String
  author : Option String
  created_utc : Int
  permalink : String
  text : String
deriving Repr, DecidableEq

/-- The `ScrapeRequest` pydantic model: exactly the three declared fields.
No `use_twitter_snscrape` field is declared, so reading that attribute on a
request raises `AttributeError`. -/
structure ScrapeRequest where
  keyword : String
  platform : String
  timeframe_days : Int
deriving Repr, DecidableEq

/-- Exceptions a `/scrape` call can raise: the explicit 502 `HTTPException`
of the reddit adapter, and the `AttributeError` from reading an attribute the
pydantic model does not declare. -/
inductive ScrapeError where
  | httpException (status : Nat) (detail : String)
  | attributeError (attr : String)
deriving Repr, DecidableEq

/-- `clamp(v, lo, hi) = max(lo, min(hi, v))` from app.py. -/
def clamp (v lo hi : Int) : Int := max lo (min hi v)

/-- `_cache_key(prefix, payload)` sha256-hashes the sorted-keys JSON
serialization of `req.dict()`; the hash is modelled by its preimage (the
prefix together with the three declared field values), i.e. keying treats
sha256 as injective. -/
def cache_key (pre : String) (req : ScrapeRequest) : String × String × String × Int :=
  (pre, req.keyword, req.platform, req.timeframe_days)

abbrev CacheKey := String × String × String × Int

/-- The module-level `TTLCache(maxsize=128, ttl=600)`, modelled as an
association list from fingerprint to stored items.  TTL expiry and LRU
eviction are not modelled: no claim under verification depends on them. -/
abbrev Cache := List (CacheKey × List Post)

def cacheLookup (c : Cache) (k : CacheKey) : Option (List Post) :=
  (c.find? (fun e => decide (e.1 = k))).map (·.2)

/-- `cache[key] = items`; the new binding shadows any older one. -/
def cacheInsert (c : Cache) (k : CacheKey) (v : List Post) : Cache :=
  (k, v) :: c

def secondsPerDay : Int := 86400

/-- One child of the reddit search listing, with the fields the code reads
via `d.get` (the `get` defaults stand for missing JSON fields: `0` for
`created_utc`, `""` for the strings, `None` for `author`). -/
structure RedditChild where
  id : String
  author : Option String
  created_utc : Int
  permalink : String
  title : String
  selftext : String
deriving Repr, DecidableEq

/-- The upstream reddit HTTP response, reduced to what the code reads. -/
structure RedditResponse where
  status_code : Nat
  children : List RedditChild
deriving Repr, DecidableEq

/-- `scrape_reddit`: raises HTTPException 502 on a non-200 status; otherwise
keeps every child whose `created_utc` is at or after `now - days` and whose
trimmed `title + " " + selftext` is non-empty.  (The code converts the Unix
integer to a datetime and back with `int(created.timestamp())`, the identity
on second-granularity timestamps.) -/
def scrape_reddit (resp : RedditResponse) (now : Int) (days : Int) :
    Except ScrapeError (List Post) :=
  if resp.status_code ≠ 200 then
    .error (.httpException 502 "Reddit fetch failed")
  else
    let cutoff := now - days * secondsPerDay
    .ok (resp.children.filterMap (fun d =>
      if d.created_utc < cutoff then none
      else
        let text := pyStrip (d.title ++ " " ++ d.selftext)
        if text = "" then none
        else some { id := d.id, platform := "reddit", author := d.author,
                    created_utc := d.created_utc,
                    permalink := "https://reddit.com" ++ d.permalink,
                    text := text }))

/-- One parsed feed entry: `published_parsed` is the optional structured
publish time as Unix seconds (`none` when the attribute is missing or
falsy), and `title`, `summary`, `link` are the string attributes read with
empty-string defaults. -/
structure NewsEntry where
  published_parsed : Option Int
  title : String
  summary : String
  link : String
deriving Repr, DecidableEq

/-- The md5 content hash used for feed ids, modelled by its preimage. -/
def md5_hex (s : String) : String := "md5:" ++ s

/-- The Post dict one feed entry is mapped to (note: no emptiness check on
`text`, and no `author` key).  `e.link or text` picks `text` when the link is
falsy. -/
def newsPost (now : Int) (e : NewsEntry) : Post :=
  let published := e.published_parsed.getD now
  let text := pyStrip (e.title ++ " " ++ e.summary)
  { id := md5_hex (if e.link = "" then text else e.link), platform := "news",
    author := none, created_utc := published, permalink := e.link, text := text }

/-- `scrape_news`: iterates `d.entries[:50]` and keeps every entry whose
publish time (an absent publish time is replaced by the capture-time `now`)
is at or after `now - days`. -/
def scrape_news (entries : List NewsEntry) (now : Int) (days : Int) : List Post :=
  let cutoff := now - days * secondsPerDay
  (entries.take 50).filterMap (fun e =>
    if e.published_parsed.getD now < cutoff then none
    else some (newsPost now e))

/-- One line of snscrape JSONL output, already parsed: `date` is the tweet's
ISO-8601 timestamp as Unix seconds. -/
structure Tweet where
  id : String
  username : String
  date : Int
  url : String
  content : String
deriving Repr, DecidableEq

/-- The Post dict one tweet is mapped to (no emptiness or recency check). -/
def tweetPost (t : Tweet) : Post :=
  { id := t.id, platform := "twitter", author := some t.username,
    created_utc := t.date, permalink := t.url, text := t.content }

/-- `scrape_twitter`: returns `[]` immediately when `use_snscrape` is false
(the subprocess is not run); otherwise runs the snscrape subprocess — whose
query string carries `keyword` and the `since:` date derived from `days`,
both consumed by the external process, modelled by the oracle `subproc` —
and on any exception (spawn failure, non-zero exit, JSON parse error) returns
`[]`.  The Bool component records whether the subprocess was invoked; the
item loop breaks once 100 items are collected. -/
def scrape_twitter (keyword : String) (days : Int) (use_snscrape : Bool)
    (subproc : Except String (List Tweet)) : Bool × List Post :=
  if !use_snscrape then (false, [])
  else
    match subproc with
    | .error _ => (true, [])
    | .ok tweets => (true, (tweets.take 100).map tweetPost)

/-- The upstream world one `/scrape` call can observe. -/
structure Upstream where
  reddit : RedditResponse
  news : List NewsEntry
deriving Repr, DecidableEq

/-- The `/scrape` handler: fingerprint of the RAW request (`req.dict()` is
serialized before any clamping), cache lookup, then dispatch on `platform`;
the adapters receive `clamp(timeframe_days, 1, 30)`.  Any platform other
than "reddit" / "news" falls into the final branch, which evaluates the
argument `req.use_twitter_snscrape`; `ScrapeRequest` declares no such field,
so the attribute read raises before `scrape_twitter` is ever called.
Returns the handler's outcome together with the cache state after the call
(an exception leaves the cache untouched). -/
def scrape (up : Upstream) (now : Int) (req : ScrapeRequest) (cache : Cache) :
    Except ScrapeError (Bool × List Post) × Cache :=
  let key := cache_key "scrape" req
  match cacheLookup cache key with
  | some items => (.ok (true, items), cache)
  | none =>
    if req.platform = "reddit" then
      match scrape_reddit up.reddit now (clamp req.timeframe_days 1 30) with
      | .error e => (.error e, cache)
      | .ok items => (.ok (false, items), cacheInsert cache key items)
    else if req.platform = "news" then
      let items := scrape_news up.news now (clamp req.timeframe_days 1 30)
      (.ok (false, items), cacheInsert cache key items)
    else
      (.error (.attributeError "use_twitter_snscrape"), cache)

/-- ASCII model of the regex word character class: letters, digits, `_`. -/
def isWordChar (c : Char) : Bool := c.isAlphanum || c = '_'

/-- Left-to-right scan implementing the findall of `#` followed by one or
more word characters: `some cur` means the scan is inside a candidate
hashtag whose word characters so far are `cur` (reversed); a candidate with
no word character matches nothing, and matching is non-overlapping. -/
def hashtagScan : Option (List Char) → List Char → List String
  | none, [] => []
  | some cur, [] => if cur.isEmpty then [] else [String.mk ('#' :: cur.reverse)]
  | none, c :: cs =>
      if c = '#' then hashtagScan (some []) cs else hashtagScan none cs
  | some cur, c :: cs =>
      if isWordChar c then hashtagScan (some (c :: cur)) cs
      else
        let rest := if c = '#' then hashtagScan (some []) cs else hashtagScan none cs
        if cur.isEmpty then rest else String.mk ('#' :: cur.reverse) :: rest

/-- `re.findall` of the hashtag pattern over one text. -/
def findHashtags (t : String) : List String := hashtagScan none t.data

/-- `extract_hashtags`: all hashtag matches across the batch, in encounter
order, duplicates preserved (the code extends one list per text). -/
def extract_hashtags (texts : List String) : List String :=
  texts.foldl (fun tags t => tags ++ findHashtags t) []

def isAsciiLetter (c : Char) : Bool :=
  ('a' ≤ c && c ≤ 'z') || ('A' ≤ c && c ≤ 'Z')

/-- Maximal runs of ASCII letters in a character stream; `cur` holds the
(reversed) run in progress. -/
def letterTokens (cur : List Char) : List Char → List String
  | [] => if cur.isEmpty then [] else [String.mk cur.reverse]
  | c :: cs =>
      if isAsciiLetter c then letterTokens (c :: cur) cs
      else if cur.isEmpty then letterTokens cur cs
      else String.mk cur.reverse :: letterTokens [] cs

/-- The fallback tokenizer: letter runs of length at least 3 of the
lowercased document. -/
def pyWords (full : String) : List String :=
  (letterTokens [] (full.map Char.toLower).data).filter (fun w => 3 ≤ w.length)

def countOcc (ws : List String) (w : String) : Nat :=
  (ws.filter (fun x => x = w)).length

/-- Distinct elements in first-occurrence order (Counter insertion order;
also the deterministic representative chosen for Python set iteration). -/
def dedupFirst (ws : List String) : List String :=
  ws.foldl (fun acc w => if w ∈ acc then acc else acc ++ [w]) []

/-- `Counter(words).most_common(n)`: distinct words sorted by count
descending, ties in insertion order (Python's sort is stable over the
counter's insertion order, as is `mergeSort`). -/
def most_common (ws : List String) (n : Nat) : List String :=
  ((dedupFirst ws).mergeSort (fun a b => countOcc ws b ≤ countOcc ws a)).take n

/-- The optional NLP capabilities: the presence flags decided at import time
and the behaviour of the external libraries, as oracles over the joined
document. -/
structure NlpEnv where
  /-- whether `import yake` succeeded (`_HAS_YAKE`). -/
  hasYake : Bool
  /-- `yake.KeywordExtractor(lan="en", n=1, top=20).extract_keywords` on the
  joined document: (keyword, score) pairs, score scaled to ten-thousandths. -/
  yake : String → List (String × Int)
  /-- whether spaCy and its model loaded (`_HAS_SPACY` and `_NLP`). -/
  hasSpacy : Bool
  /-- the recognizer's entities of the joined document: (surface text,
  label) pairs. -/
  spacy : String → List (String × String)
  /-- the VADER compound polarity score of one text, scaled to
  ten-thousandths (so the `0.05` threshold is `500`). -/
  compound : String → Int

/-- `extract_keywords`: joins the batch with single spaces; with yake,
sorts the (keyword, score) pairs ascending by score and keeps the bare
keywords; without it, the 20 most frequent lowercased letter tokens of
length at least 3. -/
def extract_keywords (env : NlpEnv) (texts : List String) : List String :=
  let full := String.intercalate " " texts
  if env.hasYake then
    ((env.yake full).mergeSort (fun a b => a.2 ≤ b.2)).map Prod.fst
  else
    most_common (pyWords full) 20

def entityLabels : List String := ["ORG", "PRODUCT", "PERSON", "GPE", "EVENT"]

/-- `named_entities`: empty without spaCy; otherwise the set of entity
surface strings of the joined document whose label is in `entityLabels`
(Python set iteration order is unspecified; modelled as first-occurrence
order). -/
def named_entities (env : NlpEnv) (texts : List String) : List String :=
  if !env.hasSpacy then []
  else
    dedupFirst (((env.spacy (String.intercalate " " texts)).filter
      (fun e => e.2 ∈ entityLabels)).map Prod.fst)

/-- The counts dict of `sentiment_scores`. -/
structure SentimentCounts where
  positive : Nat
  neutral : Nat
  negative : Nat
deriving Repr, DecidableEq

/-- One iteration of the `sentiment_scores` loop: `score >= 0.05` bumps
positive, elif `score <= -0.05` bumps negative, else neutral. -/
def sentimentStep (compound : String → Int) (c : SentimentCounts) (t : String) :
    SentimentCounts :=
  let score := compound t
  if 500 ≤ score then { c with positive := c.positive + 1 }
  else if score ≤ -500 then { c with negative := c.negative + 1 }
  else { c with neutral := c.neutral + 1 }

/-- `sentiment_scores`: per-text classification, aggregated left to right
from zero counts. -/
def sentiment_scores (compound : String → Int) (texts : List String) :
    SentimentCounts :=
  texts.foldl (sentimentStep compound) ⟨0, 0, 0⟩

/-- The `/analyze` response dict.  `samples = none` models a dict with no
"samples" key at all (the early-exit branch builds such a dict). -/
structure AnalysisReport where
  keywords : List String
  entities : List String
  hashtags : List String
  sentiment : SentimentCounts
  samples : Option (List String)
deriving Repr, DecidableEq

/-- The early-exit report of `/analyze`. -/
def zeroReport : AnalysisReport :=
  { keywords := [], entities := [], hashtags := [], sentiment := ⟨0, 0, 0⟩,
    samples := none }

/-- The `/analyze` handler: filters the batch to texts with non-empty strip,
early-exits with the zero report when nothing is left, and otherwise runs
the four extractors over the filtered batch and echoes its first 10 texts. -/
def analyze (env : NlpEnv) (req_texts : List String) : AnalysisReport :=
  let texts := req_texts.filter (fun t => pyStrip t ≠ "")
  if texts.isEmpty then zeroReport
  else
    { keywords := extract_keywords env texts
      entities := named_entities env texts
      hashtags := extract_hashtags texts
      sentiment := sentiment_scores env.compound texts
      samples := some (texts.take 10) }

/-- Modelled from the spec's words, for comparison with `scrape_news`: the
news adapter with its 50-item cap applied AFTER the recency filter, as §4.2
of the spec describes it ("applied after recency filtering so that the
freshest matching items are not starved by the cap"). -/
def scrape_news_spec (entries : List NewsEntry) (now : Int) (days : Int) :
    List Post :=
  let cutoff := now - days * secondsPerDay
  (entries.filterMap (fun e =>
    if e.published_parsed.getD now < cutoff then none
    else some (newsPost now e))).take 50

/-- A benign upstream world: reddit answers 200 with no children, the feed
is empty. -/
def up₀ : Upstream := ⟨⟨200, []⟩, []⟩

/-- NLP environment with every optional capability absent. -/
def nlpEnv₀ : NlpEnv := ⟨false, fun _ => [], false, fun _ => [], fun _ => 0⟩

/-- NLP environment with every optional capability present and visibly
different behaviour from `nlpEnv₀`. -/
def nlpEnvA : NlpEnv :=
  ⟨true, fun s => [(s, 100)], true, fun s => [(s, "ORG")], fun _ => 9999⟩

/-- A feed entry published long before any cutoff used in the statements. -/
def oldEntry : NewsEntry := ⟨some (-200000), "old", "", "u1"⟩

/-- A feed entry published at the capture time of the statements. -/
def freshEntry : NewsEntry := ⟨some 0, "fresh", "", "u2"⟩

/-- The Post the reddit adapter builds from the child
`⟨"i", none, 100, "/p", "t", ""⟩`. -/
def wPost : Post := ⟨"i", "reddit", none, 100, "https://reddit.com/p", "t"⟩

-- Theorems settling the claims.

/-- C3 (code bug evidence): the twitter adapter itself behaves exactly as
the claim says — with the flag off it returns `(false, [])` for every
subprocess behaviour (the subprocess is not invoked), and with the flag on
any subprocess exception yields `(true, [])` rather than a failure — but the
`/scrape` handler can never reach it: `ScrapeRequest` declares no
`use_twitter_snscrape` field, so a twitter fetch raises `AttributeError`
instead of succeeding with an empty item list. -/
theorem scrape_twitter_fail_open_but_fetch_raises :
    (∀ sub : Except String (List Tweet), scrape_twitter "x" 7 false sub = (false, [])) ∧
    (∀ msg : String, scrape_twitter "x" 7 true (.error msg) = (true, [])) ∧
    scrape up₀ 0 ⟨"x", "twitter", 7⟩ [] =
      (.error (.attributeError "use_twitter_snscrape"), []) :=
  ⟨fun _ => rfl, fun _ => rfl, by decide⟩

/-- C10: for every platform string other than "reddit" and "news" — the
handler validates nothing — a cache-missing scrape falls into the twitter
branch and fails there by reading the undeclared `use_twitter_snscrape`
attribute, leaving the cache unchanged. -/
theorem scrape_unknown_platform_reads_undeclared_attribute
    (up : Upstream) (now : Int) (req : ScrapeRequest) (cache : Cache)
    (h1 : req.platform ≠ "reddit") (h2 : req.platform ≠ "news")
    (hmiss : cacheLookup cache (cache_key "scrape" req) = none) :
    scrape up now req cache =
      (.error (.attributeError "use_twitter_snscrape"), cache) := by
  simp [scrape, hmiss, h1, h2]

/-- C10 witness: a scrape for the undocumented platform "gopher" on an empty
cache raises the AttributeError. -/
theorem scrape_unknown_platform_reads_undeclared_attribute_witness :
    scrape up₀ 0 ⟨"k", "gopher", 7⟩ [] =
      (.error (.attributeError "use_twitter_snscrape"), []) :=
  scrape_unknown_platform_reads_undeclared_attribute up₀ 0 ⟨"k", "gopher", 7⟩ []
    (by decide) (by decide) (by decide)

/-- C6: with a cache miss and a non-200 reddit upstream, the scrape raises
the 502 HTTPException and the cache after the call is the cache before the
call — in particular it still holds no entry for the request's
fingerprint. -/
theorem scrape_upstream_failure_propagates_uncached
    (up : Upstream) (now : Int) (req : ScrapeRequest) (cache : Cache)
    (hp : req.platform = "reddit") (hfail : up.reddit.status_code ≠ 200)
    (hmiss : cacheLookup cache (cache_key "scrape" req) = none) :
    scrape up now req cache =
      (.error (.httpException 502 "Reddit fetch failed"), cache) ∧
    cacheLookup (scrape up now req cache).2 (cache_key "scrape" req) = none := by
  have hmain : scrape up now req cache =
      (.error (.httpException 502 "Reddit fetch failed"), cache) := by
    simp [scrape, hmiss, hp, scrape_reddit, hfail]
  exact ⟨hmain, by rw [hmain]; exact hmiss⟩

/-- C6 witness: a reddit scrape against a 500 upstream on an empty cache. -/
theorem scrape_upstream_failure_propagates_uncached_witness :
    scrape ⟨⟨500, []⟩, []⟩ 0 ⟨"k", "reddit", 7⟩ [] =
      (.error (.httpException 502 "Reddit fetch failed"), []) ∧
    cacheLookup (scrape ⟨⟨500, []⟩, []⟩ 0 ⟨"k", "reddit", 7⟩ []).2
      (cache_key "scrape" ⟨"k", "reddit", 7⟩) = none :=
  scrape_upstream_failure_propagates_uncached ⟨⟨500, []⟩, []⟩ 0 ⟨"k", "reddit", 7⟩ []
    rfl (by decide) (by decide)

/-- C1 counterexample: the requests ⟨"k", "news", 31⟩ and ⟨"k", "news", 32⟩
clamp to the same effective window, yet their fingerprints differ, and after
the first is fetched and stored the second still misses the cache
(`cached = false`): they do not share a cache entry. -/
theorem scrape_same_clamp_no_shared_entry_cex :
    clamp 31 1 30 = clamp 32 1 30 ∧
    cache_key "scrape" ⟨"k", "news", 31⟩ ≠ cache_key "scrape" ⟨"k", "news", 32⟩ ∧
    (scrape up₀ 0 ⟨"k", "news", 32⟩ (scrape up₀ 0 ⟨"k", "news", 31⟩ []).2).1 =
      .ok (false, []) := by decide

/-- C2 counterexample: a feed entry with empty title and summary becomes a
news Post whose `text` is the empty string — the news adapter drops
nothing. -/
theorem scrape_news_empty_text_cex :
    (scrape_news [⟨some 0, "", "", "u"⟩] 0 7).map Post.text = [""] := by decide

/-- C4 counterexample: with 50 stale entries ahead of one fresh entry, the
code (cap before filter) returns nothing, while the spec's order (filter
before cap) would return the fresh item. -/
theorem scrape_news_cap_order_cex :
    scrape_news (List.replicate 50 oldEntry ++ [freshEntry]) 0 1 = [] ∧
    scrape_news_spec (List.replicate 50 oldEntry ++ [freshEntry]) 0 1 =
      [newsPost 0 freshEntry] := by decide

/-- C5 counterexample: a reddit child dated 1000000 seconds after the
capture time `now = 0` passes the filter, so the returned `created_utc`
exceeds `now` — the claimed upper bound of the window does not hold. -/
theorem scrape_reddit_future_timestamp_cex :
    (scrape_reddit ⟨200, [⟨"f", none, 1000000, "/q", "hi", ""⟩]⟩ 0 7).map
      (fun l => l.map Post.created_utc) = .ok [1000000] ∧
    ¬((1000000 : Int) ≤ 0) := by decide

/-- C9 counterexample: on a batch that filters to empty, the report has no
samples field at all (`none`), not the claimed first-10 echo (`some []`). -/
theorem analyze_no_samples_field_cex :
    (analyze nlpEnv₀ [""]).samples = none ∧
    (analyze nlpEnv₀ [""]).samples ≠
      some ((([""] : List String).filter (fun t => pyStrip t ≠ "")).take 10) := by
  decide

lemma cacheLookup_nil (k : CacheKey) : cacheLookup [] k = none := rfl

lemma cacheLookup_insert_ne (c : Cache) (k k' : CacheKey) (v : List Post)
    (h : k ≠ k') : cacheLookup (cacheInsert c k v) k' = cacheLookup c k' := by
  have hd : (decide (((k, v) : CacheKey × List Post).1 = k')) = false :=
    decide_eq_false h
  simp [cacheLookup, cacheInsert, List.find?_cons, hd]

/-- Dispatch shape of a cache-missing scrape. -/
lemma scrape_of_miss (up : Upstream) (now : Int) (req : ScrapeRequest)
    (cache : Cache) (hmiss : cacheLookup cache (cache_key "scrape" req) = none) :
    scrape up now req cache =
      if req.platform = "reddit" then
        match scrape_reddit up.reddit now (clamp req.timeframe_days 1 30) with
        | .error e => (.error e, cache)
        | .ok items =>
            (.ok (false, items), cacheInsert cache (cache_key "scrape" req) items)
      else if req.platform = "news" then
        (.ok (false, scrape_news up.news now (clamp req.timeframe_days 1 30)),
          cacheInsert cache (cache_key "scrape" req)
            (scrape_news up.news now (clamp req.timeframe_days 1 30)))
      else (.error (.attributeError "use_twitter_snscrape"), cache) := by
  simp [scrape, hmiss]

/-- C1 (amended): filtering always sees the clamped window — two fetches
identical but for raw `timeframe_days` values that clamp to the same value
compute identical item lists — yet the fingerprint is computed over the RAW
request, so after the first fetch is stored the second one still misses the
cache and stores the same items again under its own distinct key; the two
requests do not share a cache entry. -/
theorem scrape_clamped_filtering_raw_fingerprint
    (up : Upstream) (now : Int) (req₁ req₂ : ScrapeRequest)
    (hkw : req₁.keyword = req₂.keyword) (hpf : req₁.platform = req₂.platform)
    (hcl : clamp req₁.timeframe_days 1 30 = clamp req₂.timeframe_days 1 30)
    (hne : req₁.timeframe_days ≠ req₂.timeframe_days)
    (items₁ : List Post) (c₁ : Cache)
    (h₁ : scrape up now req₁ [] = (.ok (false, items₁), c₁)) :
    scrape up now req₂ c₁ =
      (.ok (false, items₁), cacheInsert c₁ (cache_key "scrape" req₂) items₁) := by
  have hkne : cache_key "scrape" req₁ ≠ cache_key "scrape" req₂ := fun hc =>
    hne (congrArg (fun k => k.2.2.2) hc)
  rw [scrape_of_miss up now req₁ [] (cacheLookup_nil _)] at h₁
  by_cases hr : req₁.platform = "reddit"
  · rw [if_pos hr] at h₁
    cases hsr : scrape_reddit up.reddit now (clamp req₁.timeframe_days 1 30) with
    | error e => rw [hsr] at h₁; simp at h₁
    | ok its =>
        rw [hsr] at h₁
        simp only [Prod.mk.injEq, Except.ok.injEq] at h₁
        obtain ⟨⟨-, hits⟩, hc⟩ := h₁
        subst hits
        subst hc
        have hr2 : req₂.platform = "reddit" := hpf ▸ hr
        rw [scrape_of_miss up now req₂ _
          (by rw [cacheLookup_insert_ne _ _ _ _ hkne]; exact cacheLookup_nil _)]
        rw [if_pos hr2, ← hcl, hsr]
  · by_cases hw : req₁.platform = "news"
    · rw [if_neg hr, if_pos hw] at h₁
      simp only [Prod.mk.injEq, Except.ok.injEq] at h₁
      obtain ⟨⟨-, hits⟩, hc⟩ := h₁
      subst hits
      subst hc
      have hr2 : ¬ req₂.platform = "reddit" := hpf ▸ hr
      have hw2 : req₂.platform = "news" := hpf ▸ hw
      rw [scrape_of_miss up now req₂ _
        (by rw [cacheLookup_insert_ne _ _ _ _ hkne]; exact cacheLookup_nil _)]
      rw [if_neg hr2, if_pos hw2, ← hcl]
    · rw [if_neg hr, if_neg hw] at h₁
      simp at h₁

/-- C1 witness: requests ⟨"k", "news", 31⟩ and ⟨"k", "news", 32⟩ against the
benign upstream; the second call recomputes the same (empty) items and
stores them under its own key. -/
theorem scrape_clamped_filtering_raw_fingerprint_witness :
    scrape up₀ 0 ⟨"k", "news", 32⟩ [(("scrape", "k", "news", 31), [])] =
      (.ok (false, []),
        cacheInsert [(("scrape", "k", "news", 31), [])]
          (cache_key "scrape" ⟨"k", "news", 32⟩) []) :=
  scrape_clamped_filtering_raw_fingerprint up₀ 0 ⟨"k", "news", 31⟩
    ⟨"k", "news", 32⟩ rfl rfl (by decide) (by decide) []
    [(("scrape", "k", "news", 31), [])] (by decide)

/-- C2 (amended): every Post the reddit adapter returns has non-empty text
(children whose trimmed combined text is empty are dropped); the news and
twitter adapters perform no such check — see the counterexample. -/
theorem scrape_reddit_text_nonempty (resp : RedditResponse) (now days : Int)
    (items : List Post) (h : scrape_reddit resp now days = .ok items) :
    ∀ p ∈ items, p.text ≠ "" := by
  intro p hp
  unfold scrape_reddit at h
  split at h
  · simp at h
  · rw [Except.ok.injEq] at h
    subst h
    obtain ⟨d, _, hf⟩ := List.mem_filterMap.mp hp
    by_cases hc : d.created_utc < now - days * secondsPerDay
    · simp [hc] at hf
    · by_cases ht : pyStrip (d.title ++ " " ++ d.selftext) = ""
      · simp [hc, ht] at hf
      · simp only [if_neg hc, if_neg ht, Option.some.injEq] at hf
        rw [← hf]
        exact ht

/-- C2 witness: a reddit child with title "t" and empty body yields the
Post `wPost` with non-empty text "t". -/
theorem scrape_reddit_text_nonempty_witness :
    scrape_reddit ⟨200, [⟨"i", none, 100, "/p", "t", ""⟩]⟩ 0 7 = .ok [wPost] ∧
    wPost.text ≠ "" :=
  ⟨by decide, scrape_reddit_text_nonempty ⟨200, [⟨"i", none, 100, "/p", "t", ""⟩]⟩
    0 7 [wPost] (by decide) wPost (by simp)⟩

/-- C4 (amended): the news adapter's 50-item cap is applied to the raw feed
entries BEFORE the recency filter — once the feed has 50 entries, whatever
is appended after them can never reach the output, however fresh; the
reddit adapter has no local cap at all (its 100 is an upstream request
parameter) and the twitter adapter caps parsed items at 100 with no local
recency filter. -/
theorem scrape_news_cap_applies_before_filter (entries extra : List NewsEntry)
    (now days : Int) (h : 50 ≤ entries.length) :
    scrape_news (entries ++ extra) now days = scrape_news entries now days := by
  unfold scrape_news
  rw [List.take_append_of_le_length h]

/-- C4 witness: appending a fresh entry after 50 stale ones does not change
the (empty) output. -/
theorem scrape_news_cap_applies_before_filter_witness :
    scrape_news (List.replicate 50 oldEntry ++ [freshEntry]) 0 1 =
      scrape_news (List.replicate 50 oldEntry) 0 1 :=
  scrape_news_cap_applies_before_filter (List.replicate 50 oldEntry)
    [freshEntry] 0 1 (by decide)

/-- C5 (amended): reddit and news Posts satisfy the LOWER recency bound
`now - timeframe_days ≤ created_utc`; no upper bound is checked (the
counterexample shows a future-dated item passing), the twitter adapter
applies no local timestamp filter at all, and a news entry among the first
50 with no publish time is assigned `now`, which always passes when
`days ≥ 1`. -/
theorem adapter_recency_lower_bound (resp : RedditResponse)
    (entries : List NewsEntry) (now days : Int) (items : List Post)
    (h : scrape_reddit resp now days = .ok items) :
    (∀ p ∈ items, now - days * secondsPerDay ≤ p.created_utc) ∧
    (∀ p ∈ scrape_news entries now days,
      now - days * secondsPerDay ≤ p.created_utc) ∧
    (1 ≤ days → ∀ e ∈ entries.take 50, e.published_parsed = none →
      newsPost now e ∈ scrape_news entries now days) := by
  refine ⟨?_, ?_, ?_⟩
  · intro p hp
    unfold scrape_reddit at h
    split at h
    · simp at h
    · rw [Except.ok.injEq] at h
      subst h
      obtain ⟨d, _, hf⟩ := List.mem_filterMap.mp hp
      by_cases hc : d.created_utc < now - days * secondsPerDay
      · simp [hc] at hf
      · by_cases ht : pyStrip (d.title ++ " " ++ d.selftext) = ""
        · simp [hc, ht] at hf
        · simp only [if_neg hc, if_neg ht, Option.some.injEq] at hf
          rw [← hf]
          exact not_lt.mp hc
  · intro p hp
    unfold scrape_news at hp
    obtain ⟨e, _, hf⟩ := List.mem_filterMap.mp hp
    by_cases hc : e.published_parsed.getD now < now - days * secondsPerDay
    · simp [hc] at hf
    · simp only [if_neg hc, Option.some.injEq] at hf
      rw [← hf]
      simpa [newsPost] using not_lt.mp hc
  · intro hdays e he hnone
    unfold scrape_news
    refine List.mem_filterMap.mpr ⟨e, he, ?_⟩
    have hx : (0 : Int) ≤ days * secondsPerDay := by
      have : (0 : Int) ≤ secondsPerDay := by norm_num [secondsPerDay]
      exact mul_nonneg (by linarith) this
    have hc : ¬ (e.published_parsed.getD now < now - days * secondsPerDay) := by
      rw [hnone]
      simp only [Option.getD_none]
      intro hcon
      linarith
    rw [if_neg hc]

/-- C5 witness: a reddit child created 100 seconds after the epoch, fetched
at `now = 0` with a 7-day window, satisfies the lower bound. -/
theorem adapter_recency_lower_bound_witness :
    scrape_reddit ⟨200, [⟨"i", none, 100, "/p", "t", ""⟩]⟩ 0 7 = .ok [wPost] ∧
    0 - 7 * secondsPerDay ≤ wPost.created_utc :=
  ⟨by decide, (adapter_recency_lower_bound ⟨200, [⟨"i", none, 100, "/p", "t", ""⟩]⟩
    [] 0 7 [wPost] (by decide)).1 wPost (by simp)⟩

lemma sentiment_foldl_partition (f : String → Int) (ts : List String)
    (c : SentimentCounts) :
    ts.foldl (sentimentStep f) c =
      ⟨c.positive + (ts.filter (fun t => 500 ≤ f t)).length,
       c.neutral + (ts.filter (fun t => ¬(500 ≤ f t) ∧ ¬(f t ≤ -500))).length,
       c.negative + (ts.filter (fun t => f t ≤ -500)).length⟩ := by
  induction ts generalizing c with
  | nil => simp
  | cons t ts ih =>
      rw [List.foldl_cons, ih]
      by_cases h1 : 500 ≤ f t
      · have h2 : ¬ (f t ≤ -500) := by omega
        have h3 : ¬ (¬(500 ≤ f t) ∧ ¬(f t ≤ -500)) := fun hh => hh.1 h1
        simp [sentimentStep, h1, h2, h3, SentimentCounts.mk.injEq] <;> omega
      · by_cases h2 : f t ≤ -500
        · have h3 : ¬ (¬(500 ≤ f t) ∧ ¬(f t ≤ -500)) := fun hh => hh.2 h2
          simp [sentimentStep, h1, h2, h3, SentimentCounts.mk.injEq] <;> omega
        · have h3 : ¬(500 ≤ f t) ∧ ¬(f t ≤ -500) := ⟨h1, h2⟩
          have h4 : f t < 500 := by omega
          have h5 : -500 < f t := by omega
          simp [sentimentStep, h1, h2, h3, h4, h5,
            SentimentCounts.mk.injEq] <;> omega

lemma sentiment_filter_length_sum (f : String → Int) (ts : List String) :
    (ts.filter (fun t => 500 ≤ f t)).length +
      (ts.filter (fun t => ¬(500 ≤ f t) ∧ ¬(f t ≤ -500))).length +
      (ts.filter (fun t => f t ≤ -500)).length = ts.length := by
  induction ts with
  | nil => simp
  | cons t ts ih =>
      by_cases h1 : 500 ≤ f t
      · have h2 : ¬ (f t ≤ -500) := by omega
        simp [List.filter_cons, h1, h2] at ih ⊢ <;> omega
      · by_cases h2 : f t ≤ -500
        · simp [List.filter_cons, h1, h2] at ih ⊢ <;> omega
        · have h4 : f t < 500 := by omega
          have h5 : -500 < f t := by omega
          simp [List.filter_cons, h1, h2, h4, h5] at ih ⊢ <;> omega

/-- C7: in every analyze report the positive count is the number of
filtered texts with compound score at least 0.05, the negative count the
number with score at most -0.05, and the three counts sum exactly to the
number of filtered texts — classification is per item. -/
theorem analyze_sentiment_counts (env : NlpEnv) (texts : List String) :
    (analyze env texts).sentiment.positive =
      ((texts.filter (fun t => pyStrip t ≠ "")).filter
        (fun t => 500 ≤ env.compound t)).length ∧
    (analyze env texts).sentiment.negative =
      ((texts.filter (fun t => pyStrip t ≠ "")).filter
        (fun t => env.compound t ≤ -500)).length ∧
    (analyze env texts).sentiment.positive +
        (analyze env texts).sentiment.neutral +
        (analyze env texts).sentiment.negative =
      (texts.filter (fun t => pyStrip t ≠ "")).length := by
  by_cases h : texts.filter (fun t => pyStrip t ≠ "") = []
  · have hz : analyze env texts = zeroReport := by
      simp only [analyze]
      rw [h]
      rfl
    rw [hz, h]
    simp [zeroReport]
  · have hne : (texts.filter (fun t => pyStrip t ≠ "")).isEmpty = false := by
      cases hl : texts.filter (fun t => pyStrip t ≠ "") with
      | nil => exact absurd hl h
      | cons a l => rfl
    have hrep : (analyze env texts).sentiment =
        sentiment_scores env.compound (texts.filter (fun t => pyStrip t ≠ "")) := by
      simp only [analyze]
      rw [hne]
      simp
    rw [hrep]
    unfold sentiment_scores
    rw [sentiment_foldl_partition]
    refine ⟨by simp, by simp, ?_⟩
    simpa using sentiment_filter_length_sum env.compound
      (texts.filter (fun t => pyStrip t ≠ ""))

/-- C8: `analyze` is total by construction, and on a batch that filters to
empty it returns the zero report — empty keywords, entities, hashtags, zero
sentiment counts, no samples key — identically for every NLP environment:
no extractor is consulted. -/
theorem analyze_empty_batch_zero_report (env env' : NlpEnv)
    (texts : List String) (h : texts.filter (fun t => pyStrip t ≠ "") = []) :
    analyze env texts = zeroReport ∧ analyze env texts = analyze env' texts := by
  have hz : ∀ e : NlpEnv, analyze e texts = zeroReport := by
    intro e
    simp only [analyze]
    rw [h]
    rfl
  exact ⟨hz env, (hz env).trans (hz env').symm⟩

/-- C8 witness: an all-whitespace batch under two different NLP
environments. -/
theorem analyze_empty_batch_zero_report_witness :
    analyze nlpEnv₀ ["", "  "] = zeroReport ∧
    analyze nlpEnv₀ ["", "  "] = analyze nlpEnvA ["", "  "] :=
  analyze_empty_batch_zero_report nlpEnv₀ nlpEnvA ["", "  "] (by decide)

/-- C9 (amended): whenever the filtered batch is non-empty, the report's
samples field is exactly the first 10 filtered texts, verbatim and in
order; on an empty filtered batch the zero report carries no samples field
at all — see the counterexample. -/
theorem analyze_samples_first10 (env : NlpEnv) (texts : List String)
    (h : texts.filter (fun t => pyStrip t ≠ "") ≠ []) :
    (analyze env texts).samples =
      some ((texts.filter (fun t => pyStrip t ≠ "")).take 10) := by
  have hne : (texts.filter (fun t => pyStrip t ≠ "")).isEmpty = false := by
    cases hl : texts.filter (fun t => pyStrip t ≠ "") with
    | nil => exact absurd hl h
    | cons a l => rfl
  simp only [analyze]
  rw [hne]
  simp

/-- C9 witness: a two-text batch with one blank; the samples are the
filtered batch itself. -/
theorem analyze_samples_first10_witness :
    (analyze nlpEnv₀ ["a", " "]).samples =
      some (((["a", " "] : List String).filter (fun t => pyStrip t ≠ "")).take 10) :=
  analyze_samples_first10 nlpEnv₀ ["a", " "] (by decide)

end OsintApp
